import Mathlib

/-!
Shallow embedding of the AUTOSAR DIO driver of `src/Autosar/Mcal/Io/Dio.c`.

Machine integers are modelled as `Nat` with explicit truncation at the C
type widths (`uint8`, `uint32`); the memory-mapped GPIO register file
`DIOA[...]` is modelled as a function from port index to a register block.
The headers `Std_Types.h`, `Registers.h`, `Dio.h` and `Bfx.h` are not part
of the sources, so the types and bit primitives they declare are modelled
from the specification (§3, §6) and marked as such.
-/

namespace Dio

/-- All-ones mask of a `uint8`; `x &&& M8` models truncation to 8 bits. -/
def M8 : Nat := 0xff

/-- All-ones mask of a `uint32`; `x &&& M32` models truncation to 32 bits,
and `m ^^^ M32` models the C complement `~m` of a `uint32` value. -/
def M32 : Nat := 0xffffffff

/-- Modelled from the spec: `STD_HIGH` of the missing `Std_Types.h`, the
logical HIGH level, represented as the smallest unsigned integer type. -/
def STD_HIGH : Nat := 1

/-- Modelled from the spec: `STD_LOW` of the missing `Std_Types.h`, the
logical LOW level. -/
def STD_LOW : Nat := 0

/-- Modelled from the spec: `Bfx_ClrBitMask_u8u8` of the missing `Bfx.h`
(bit-manipulation utility collaborator, spec §6): clears in an 8-bit datum
the bits set in the mask, `Data &= ~Mask` at 8 bits. -/
def Bfx_ClrBitMask_u8u8 (Data Mask : Nat) : Nat := Data &&& (Mask ^^^ M8)

/-- Modelled from the spec: `Bfx_ShiftBitRt_u8u8` of the missing `Bfx.h`:
logical right shift of an 8-bit datum. -/
def Bfx_ShiftBitRt_u8u8 (Data ShiftCnt : Nat) : Nat := Data >>> ShiftCnt

/-- Modelled from the spec: `Bfx_GetBit_u32u8_u8` of the missing `Bfx.h`:
returns bit `BitPn` of a 32-bit datum as 0 or 1. -/
def Bfx_GetBit_u32u8_u8 (Data BitPn : Nat) : Nat := (Data >>> BitPn) &&& 1

/-- Modelled from the spec: `Bfx_PutBit_u32u8u8` of the missing `Bfx.h`:
sets bit `BitPn` of a 32-bit datum when `Status` is nonzero, clears it
otherwise. -/
def Bfx_PutBit_u32u8u8 (Data BitPn Status : Nat) : Nat :=
  if Status ≠ 0 then Data ||| (1 <<< BitPn) else Data &&& ((1 <<< BitPn) ^^^ M32)

/-- Modelled from the spec: `Bfx_ClrBitMask_u32u32` of the missing `Bfx.h`:
`Data &= ~Mask` at 32 bits. -/
def Bfx_ClrBitMask_u32u32 (Data Mask : Nat) : Nat := Data &&& (Mask ^^^ M32)

/-- Modelled from the spec: `Bfx_SetBitMask_u32u32` of the missing `Bfx.h`:
`Data |= Mask`. -/
def Bfx_SetBitMask_u32u32 (Data Mask : Nat) : Nat := Data ||| Mask

/-- Modelled from the spec: `Bfx_ToggleBitMask_u32u32` of the missing
`Bfx.h`: `Data ^= Mask`. -/
def Bfx_ToggleBitMask_u32u32 (Data Mask : Nat) : Nat := Data ^^^ Mask

/-- Modelled from the spec: `Bfx_ShiftBitRt_u32u8` of the missing `Bfx.h`:
logical right shift of a 32-bit datum. -/
def Bfx_ShiftBitRt_u32u8 (Data ShiftCnt : Nat) : Nat := Data >>> ShiftCnt

/-- Modelled from the spec: `Bfx_ShiftBitLt_u32u8` of the missing `Bfx.h`:
left shift of a 32-bit datum, truncated to 32 bits as in C `uint32`
arithmetic. -/
def Bfx_ShiftBitLt_u32u8 (Data ShiftCnt : Nat) : Nat := (Data <<< ShiftCnt) &&& M32

/-- Modelled from the spec: `Bfx_PutBitsMask_u32u32u32` of the missing
`Bfx.h` (masked-put, spec §6): sets the bits of `Data` to the corresponding
bits of `Pattern` where `Mask` is 1, `Data = (Data & ~Mask) | (Pattern & Mask)`. -/
def Bfx_PutBitsMask_u32u32u32 (Data Pattern Mask : Nat) : Nat :=
  (Data &&& (Mask ^^^ M32)) ||| (Pattern &&& Mask)

/-- Modelled from the spec: one GPIO register block of the missing
`Registers.h` (`Dio_RegisterType`), with an input-data register `IDR` and
an output-data register `ODR`, each a 32-bit hardware register. -/
structure Dio_RegisterType where
  IDR : Nat
  ODR : Nat

/-- The memory-mapped register file `DIOA[...]`: port index to register
block. The driver performs no bounds checking, so the index domain is all
of `Nat`. -/
abbrev DioState := Nat → Dio_RegisterType

/-- Modelled from the spec: `Dio_ChannelGroupType` of the missing `Dio.h`
(spec §3): `Mask` (the member bit positions), `Offset` (the
bit position of the least-significant member bit of the group) and `Port`. -/
structure Dio_ChannelGroupType where
  Mask : Nat
  Offset : Nat
  Port : Nat

/-- `Dio_ReadChannel` of `Dio.c` (lines 36-46): decomposes the channel id
into pin (low nibble) and port (upper bits) and returns the IDR bit at the
pin position. The register file is returned unchanged: the C function
performs no store to it, only to the locals `Pin` and `Port`. -/
def Dio_ReadChannel (s : DioState) (ChannelId : Nat) : Nat × DioState :=
  let Port := ChannelId &&& M8
  let Pin := ChannelId &&& M8
  let Pin := Bfx_ClrBitMask_u8u8 Pin 0xf0
  let Port := Bfx_ShiftBitRt_u8u8 Port 4
  (Bfx_GetBit_u32u8_u8 (s Port).IDR Pin, s)

/-- `Dio_WriteChannel` of `Dio.c` (lines 61-71): decomposes the channel id
and puts `Level` at the pin position of the ODR of the port. -/
def Dio_WriteChannel (s : DioState) (ChannelId Level : Nat) : DioState :=
  let Port := ChannelId &&& M8
  let Pin := ChannelId &&& M8
  let Pin := Bfx_ClrBitMask_u8u8 Pin 0xf0
  let Port := Bfx_ShiftBitRt_u8u8 Port 4
  Function.update s Port
    { s Port with ODR := Bfx_PutBit_u32u8u8 (s Port).ODR Pin (Level &&& M8) }

/-- `Dio_ReadPort` of `Dio.c` (lines 87-92): returns the IDR of the port; no
store to the register file. -/
def Dio_ReadPort (s : DioState) (PortId : Nat) : Nat × DioState :=
  ((s (PortId &&& M8)).IDR, s)

/-- `Dio_WritePort` of `Dio.c` (lines 107-112): overwrites the ODR of the port
with `Level`. -/
def Dio_WritePort (s : DioState) (PortId Level : Nat) : DioState :=
  Function.update s (PortId &&& M8)
    { s (PortId &&& M8) with ODR := Level &&& M32 }

/-- `Dio_ReadChannelGroup` of `Dio.c` (lines 136-145): loads the IDR of the port
into a local, clears the bits outside `Mask` (the C call passes
`~Mask`), right-shifts by `Offset` and returns the value; no store to the
register file. -/
def Dio_ReadChannelGroup (s : DioState) (g : Dio_ChannelGroupType) : Nat × DioState :=
  let GroupValue := (s g.Port).IDR
  let GroupValue := Bfx_ClrBitMask_u32u32 GroupValue (g.Mask ^^^ M32)
  let GroupValue := Bfx_ShiftBitRt_u32u8 GroupValue g.Offset
  (GroupValue, s)

/-- `Dio_WriteChannelGroup` of `Dio.c` (lines 168-175): first store clears
the `Mask` bits of the ODR of the port, then the local `Level` is left-shifted
by `Offset`, then the second store ORs the shifted value into the ODR. -/
def Dio_WriteChannelGroup (s : DioState) (g : Dio_ChannelGroupType) (Level : Nat) : DioState :=
  let s1 := Function.update s g.Port
    { s g.Port with ODR := Bfx_ClrBitMask_u32u32 (s g.Port).ODR g.Mask }
  let Level := Bfx_ShiftBitLt_u32u8 (Level &&& M32) g.Offset
  Function.update s1 g.Port
    { s1 g.Port with ODR := Bfx_SetBitMask_u32u32 (s1 g.Port).ODR Level }

/-- `Dio_FlipChannel` of `Dio.c` (lines 193-205): decomposes the channel
id, toggles the one-bit mask `1 << Pin` in the ODR of the port, then returns
the IDR bit at the pin position of the updated register file. -/
def Dio_FlipChannel (s : DioState) (ChannelId : Nat) : Nat × DioState :=
  let Port := ChannelId &&& M8
  let Pin := ChannelId &&& M8
  let Pin := Bfx_ClrBitMask_u8u8 Pin 0xf0
  let Port := Bfx_ShiftBitRt_u8u8 Port 4
  let s1 := Function.update s Port
    { s Port with ODR := Bfx_ToggleBitMask_u32u32 (s Port).ODR (1 <<< Pin) }
  (Bfx_GetBit_u32u8_u8 (s1 Port).IDR Pin, s1)

/-- `Dio_MaskedWritePort` of `Dio.c` (lines 222-227): masked-put of
`Level` into the ODR of the port under `Mask`. -/
def Dio_MaskedWritePort (s : DioState) (PortId Level Mask : Nat) : DioState :=
  Function.update s (PortId &&& M8)
    { s (PortId &&& M8) with
        ODR := Bfx_PutBitsMask_u32u32u32 (s (PortId &&& M8)).ODR (Level &&& M32) (Mask &&& M32) }

/-- Modelling convention used by the round-trip claims ("with the
input-data register reflecting the written output-data register"): every
IDR of every port reads back its ODR, as for pins configured as outputs. -/
def reflect (s : DioState) : DioState := fun p => { s p with IDR := (s p).ODR }

/-- The all-zero register file, used as concrete witness state. -/
def zeroState : DioState := fun _ => { IDR := 0, ODR := 0 }

end Dio

namespace Dio

theorem M8_eq : M8 = 2 ^ 8 - 1 := by decide

theorem M32_eq : M32 = 2 ^ 32 - 1 := by decide

theorem land_M8_of_lt {c : Nat} (h : c < 256) : c &&& M8 = c := by
  rw [M8_eq, Nat.and_pow_two_sub_one_eq_mod, Nat.mod_eq_of_lt h]

theorem land_M8_land_15 (c : Nat) : (c &&& M8) &&& 15 = c &&& 15 := by
  have h : (M8 &&& 15 : Nat) = 15 := by decide
  rw [Nat.and_assoc, h]

theorem clr_f0_eq_land_15 (x : Nat) : Bfx_ClrBitMask_u8u8 x 0xf0 = x &&& 15 := by
  have h : (0xf0 ^^^ M8 : Nat) = 15 := by decide
  rw [Bfx_ClrBitMask_u8u8, h]

theorem getBit_eq (d p : Nat) : Bfx_GetBit_u32u8_u8 d p = if d.testBit p then 1 else 0 := by
  rw [Bfx_GetBit_u32u8_u8, Nat.and_one_is_mod, Nat.testBit_to_div_mod, Nat.shiftRight_eq_div_pow]
  rcases Nat.mod_two_eq_zero_or_one (d / 2 ^ p) with h | h <;> simp [h]

theorem testBit_M32 (i : Nat) : M32.testBit i = decide (i < 32) := by
  rw [M32_eq, Nat.testBit_two_pow_sub_one]

theorem testBit_lt_32 {m i : Nat} (hm : m < 2 ^ 32) (h : m.testBit i = true) : i < 32 := by
  have h1 : 2 ^ i ≤ m := Nat.testBit_implies_ge h
  have h2 : 2 ^ i < 2 ^ 32 := Nat.lt_of_le_of_lt h1 hm
  exact (Nat.pow_lt_pow_iff_right (by omega)).mp h2

theorem testBit_high {x i : Nat} (hx : x < 2 ^ 32) (h32 : 32 ≤ i) : x.testBit i = false :=
  Nat.testBit_lt_two_pow (Nat.lt_of_lt_of_le hx (Nat.pow_le_pow_right (by omega) h32))

/-- C9: Dio_ReadChannelGroup returns the IDR of the port of the group, ANDed
with the mask and then right-shifted by the offset. -/
theorem dio_readChannelGroup_maskThenShift (s : DioState) (g : Dio_ChannelGroupType) :
    (Dio_ReadChannelGroup s g).fst = ((s g.Port).IDR &&& g.Mask) >>> g.Offset := by
  simp [Dio_ReadChannelGroup, Bfx_ClrBitMask_u32u32, Bfx_ShiftBitRt_u32u8,
    Nat.xor_assoc, Nat.xor_self, Nat.xor_zero]

/-- C10: the three read services do not modify the register file. -/
theorem dio_reads_pure (s : DioState) (c p : Nat) (g : Dio_ChannelGroupType) :
    (Dio_ReadChannel s c).snd = s ∧ (Dio_ReadPort s p).snd = s ∧
    (Dio_ReadChannelGroup s g).snd = s :=
  ⟨rfl, rfl, rfl⟩

/-- C7: Dio_FlipChannel toggles exactly the addressed ODR bit, returns the
IDR bit at the pin after the toggle, and flipping twice restores state. -/
theorem dio_flipChannel_involution (s : DioState) (c : Nat) :
    (Dio_FlipChannel (Dio_FlipChannel s c).snd c).snd = s ∧
    ((Dio_FlipChannel s c).snd ((c &&& M8) >>> 4)).ODR
      = (s ((c &&& M8) >>> 4)).ODR ^^^ (1 <<< (c &&& 15)) ∧
    (Dio_FlipChannel s c).fst
      = Bfx_GetBit_u32u8_u8 (((Dio_FlipChannel s c).snd ((c &&& M8) >>> 4)).IDR) (c &&& 15) := by
  refine ⟨?_, ?_, ?_⟩
  · simp [Dio_FlipChannel, Bfx_ToggleBitMask_u32u32, Bfx_ShiftBitRt_u8u8,
      Function.update_idem, Function.update_same, Nat.xor_assoc, Nat.xor_self, Nat.xor_zero,
      Function.update_eq_self]
  · simp [Dio_FlipChannel, Bfx_ToggleBitMask_u32u32, Bfx_ShiftBitRt_u8u8,
      clr_f0_eq_land_15, land_M8_land_15, Function.update_same]
  · simp [Dio_FlipChannel, Bfx_ShiftBitRt_u8u8, clr_f0_eq_land_15, land_M8_land_15]

end Dio

namespace Dio

/-- C1 counterexample: with the descriptor Mask=0x00FF, Offset=2 of the
claim, writing 0x55 and reading back yields 0x15, not 0x55. -/
theorem dio_channelGroup_roundTrip_mask_ff_cex :
    (Dio_ReadChannelGroup (reflect (Dio_WriteChannelGroup zeroState ⟨0xff, 2, 0⟩ 0x55))
        ⟨0xff, 2, 0⟩).fst = 0x15 ∧
    (Dio_ReadChannelGroup (reflect (Dio_WriteChannelGroup zeroState ⟨0xff, 2, 0⟩ 0x55))
        ⟨0xff, 2, 0⟩).fst ≠ 0x55 := by
  constructor <;> decide

/-- C1 amended: for the in-register mask 0x3FC (the eight group bits as
positioned in the port register at offset 2), the write/read round trip
returns 0x55 on every port and from every initial register state. -/
theorem dio_channelGroup_roundTrip_inRegisterMask (s : DioState) (p : Nat) :
    (Dio_ReadChannelGroup (reflect (Dio_WriteChannelGroup s ⟨0x3fc, 2, p⟩ 0x55))
        ⟨0x3fc, 2, p⟩).fst = 0x55 := by
  have h0 : ((0x3fc ^^^ M32) ^^^ M32 : Nat) = 0x3fc := by
    rw [Nat.xor_assoc, Nat.xor_self, Nat.xor_zero]
  have h1 : (((0x55 &&& M32) <<< 2) &&& M32 : Nat) = 0x154 := by decide
  have h2 : ((0x3fc ^^^ M32) &&& 0x3fc : Nat) = 0 := by decide
  simp only [Dio_ReadChannelGroup, Dio_WriteChannelGroup, reflect,
    Bfx_ClrBitMask_u32u32, Bfx_SetBitMask_u32u32, Bfx_ShiftBitLt_u32u8, Bfx_ShiftBitRt_u32u8,
    Function.update_same, h0, h1]
  rw [Nat.and_distrib_right, Nat.and_assoc, h2, Nat.and_zero, Nat.zero_or]
  decide

/-- C3: writing 0x55 through the group Mask=0x00FF, Offset=2 into a port
whose ODR is zero leaves the ODR equal to 0x154. -/
theorem dio_writeChannelGroup_example_0x154 (s : DioState) (p : Nat)
    (h : (s p).ODR = 0) :
    ((Dio_WriteChannelGroup s ⟨0xff, 2, p⟩ 0x55) p).ODR = 0x154 := by
  simp only [Dio_WriteChannelGroup, Bfx_ClrBitMask_u32u32, Bfx_SetBitMask_u32u32,
    Bfx_ShiftBitLt_u32u8, Function.update_same, h]
  decide

/-- C3 witness at the all-zero register file on port 0. -/
theorem dio_writeChannelGroup_example_0x154_witness :
    (zeroState 0).ODR = 0 ∧ ((Dio_WriteChannelGroup zeroState ⟨0xff, 2, 0⟩ 0x55) 0).ODR = 0x154 :=
  ⟨rfl, dio_writeChannelGroup_example_0x154 zeroState 0 rfl⟩

/-- C6: writing a 32-bit value to a port and reading the port back (with
the input-data register reflecting the output-data register) returns
exactly that value. -/
theorem dio_writePort_readPort_roundTrip (s : DioState) (p v : Nat) (hv : v < 2 ^ 32) :
    (Dio_ReadPort (reflect (Dio_WritePort s p v)) p).fst = v := by
  have h1 : v &&& M32 = v := by
    rw [M32_eq, Nat.and_pow_two_sub_one_eq_mod, Nat.mod_eq_of_lt hv]
  simp [Dio_ReadPort, Dio_WritePort, reflect, Function.update_same, h1]

/-- C6 witness: port 3, value 0xABCD5678. -/
theorem dio_writePort_readPort_roundTrip_witness :
    (0xabcd5678 : Nat) < 2 ^ 32 ∧
    (Dio_ReadPort (reflect (Dio_WritePort zeroState 3 0xabcd5678)) 3).fst = 0xabcd5678 :=
  ⟨by decide, dio_writePort_readPort_roundTrip zeroState 3 0xabcd5678 (by decide)⟩

end Dio

namespace Dio

theorem land_M32_of_lt {x : Nat} (h : x < 2 ^ 32) : x &&& M32 = x := by
  rw [M32_eq]; exact Nat.and_pow_two_sub_one_of_lt_two_pow h

theorem testBit_one_shl (n j : Nat) : (1 <<< n).testBit j = decide (n = j) := by
  rw [Nat.shiftLeft_eq, Nat.one_mul, Nat.testBit_two_pow]

def cexState : DioState := fun _ => { IDR := 0, ODR := 1 }

/-- C2 counterexample: bit 0 lies outside Mask shifted left by Offset for
Mask=0x00FF, Offset=2, yet Dio_WriteChannelGroup clears it. -/
theorem dio_writeChannelGroup_frame_cex :
    ((0xff <<< 2 : Nat)).testBit 0 = false ∧
    ((Dio_WriteChannelGroup cexState ⟨0xff, 2, 0⟩ 0x55) 0).ODR.testBit 0
      ≠ ((cexState 0).ODR).testBit 0 := by
  constructor <;> decide

/-- C2 amended: Dio_WriteChannelGroup changes only ODR bits covered by the
mask or by the shifted 32-bit value; every ODR bit outside both keeps its
pre-call value, the IDR of the port is untouched, and other ports are untouched. -/
theorem dio_writeChannelGroup_frame (s : DioState) (g : Dio_ChannelGroupType) (v i : Nat)
    (hODR : (s g.Port).ODR < 2 ^ 32)
    (hm : g.Mask.testBit i = false)
    (hv : (Bfx_ShiftBitLt_u32u8 (v &&& M32) g.Offset).testBit i = false) :
    (((Dio_WriteChannelGroup s g v) g.Port).ODR).testBit i = ((s g.Port).ODR).testBit i ∧
    ((Dio_WriteChannelGroup s g v) g.Port).IDR = (s g.Port).IDR ∧
    ∀ q, q ≠ g.Port → (Dio_WriteChannelGroup s g v) q = s q := by
  refine ⟨?_, ?_, ?_⟩
  · simp only [Dio_WriteChannelGroup, Bfx_ClrBitMask_u32u32, Bfx_SetBitMask_u32u32,
      Function.update_same, Nat.testBit_or, Nat.testBit_and, hv, Bool.or_false]
    by_cases h32 : i < 32
    · have hx : (g.Mask ^^^ M32).testBit i = true := by
        rw [Nat.testBit_xor, hm, testBit_M32]; simp [h32]
      simp [hx]
    · have hODRi : ((s g.Port).ODR).testBit i = false := testBit_high hODR (by omega)
      simp [hODRi]
  · simp [Dio_WriteChannelGroup, Function.update_same]
  · intro q hq
    simp [Dio_WriteChannelGroup, Function.update_noteq hq]

/-- C2 witness: Mask=0x00FF, Offset=2, value 0x55, bit 10 on port 0. -/
theorem dio_writeChannelGroup_frame_witness :
    (zeroState 0).ODR < 2 ^ 32 ∧ (0xff : Nat).testBit 10 = false ∧
    (Bfx_ShiftBitLt_u32u8 (0x55 &&& M32) 2).testBit 10 = false ∧
    ((((Dio_WriteChannelGroup zeroState ⟨0xff, 2, 0⟩ 0x55) 0).ODR).testBit 10
        = ((zeroState 0).ODR).testBit 10 ∧
      ((Dio_WriteChannelGroup zeroState ⟨0xff, 2, 0⟩ 0x55) 0).IDR = (zeroState 0).IDR ∧
      ∀ q, q ≠ 0 → (Dio_WriteChannelGroup zeroState ⟨0xff, 2, 0⟩ 0x55) q = zeroState q) :=
  ⟨by decide, by decide, by decide,
    dio_writeChannelGroup_frame zeroState ⟨0xff, 2, 0⟩ 0x55 10 (by decide) (by decide) (by decide)⟩

/-- C4: the channel services decompose the channel id as pin = id AND 0x0F
and port = id right-shifted by 4, and address the bit at the pin position
of the register of that port. -/
theorem dio_channel_decomposition (s : DioState) (c Level : Nat) (h : c < 256) :
    (Dio_ReadChannel s c).fst = ((s (c >>> 4)).IDR >>> (c &&& 15)) &&& 1 ∧
    Dio_WriteChannel s c Level = Function.update s (c >>> 4)
      { s (c >>> 4) with ODR := Bfx_PutBit_u32u8u8 (s (c >>> 4)).ODR (c &&& 15) (Level &&& M8) } ∧
    (Dio_FlipChannel s c).snd = Function.update s (c >>> 4)
      { s (c >>> 4) with ODR := (s (c >>> 4)).ODR ^^^ (1 <<< (c &&& 15)) } ∧
    (Dio_FlipChannel s c).fst
      = (((Dio_FlipChannel s c).snd (c >>> 4)).IDR >>> (c &&& 15)) &&& 1 := by
  have hc : c &&& M8 = c := land_M8_of_lt h
  refine ⟨?_, ?_, ?_, ?_⟩ <;>
    simp [Dio_ReadChannel, Dio_WriteChannel, Dio_FlipChannel, Bfx_ShiftBitRt_u8u8,
      Bfx_GetBit_u32u8_u8, Bfx_ToggleBitMask_u32u32, clr_f0_eq_land_15, hc]

/-- C4 witness at channel id 0x23 (port 2, pin 3). -/
theorem dio_channel_decomposition_witness :
    (0x23 : Nat) < 256 ∧
    (Dio_ReadChannel zeroState 0x23).fst = ((zeroState (0x23 >>> 4)).IDR >>> (0x23 &&& 15)) &&& 1 :=
  ⟨by decide, (dio_channel_decomposition zeroState 0x23 1 (by decide)).1⟩

end Dio

namespace Dio

/-- C5: writing STD_HIGH to a channel (with the IDR reflecting the written
ODR) makes Dio_ReadChannel return STD_HIGH and sets the pin bit of
Dio_ReadPort, while every other bit of that port keeps its pre-call value. -/
theorem dio_writeChannel_readBack (s : DioState) (c : Nat) (h : c < 256)
    (hRefl : (s (c >>> 4)).IDR = (s (c >>> 4)).ODR) :
    (Dio_ReadChannel (reflect (Dio_WriteChannel s c STD_HIGH)) c).fst = STD_HIGH ∧
    ((Dio_ReadPort (reflect (Dio_WriteChannel s c STD_HIGH)) (c >>> 4)).fst).testBit (c &&& 15)
      = true ∧
    ∀ j, j ≠ c &&& 15 →
      ((Dio_ReadPort (reflect (Dio_WriteChannel s c STD_HIGH)) (c >>> 4)).fst).testBit j
        = ((Dio_ReadPort s (c >>> 4)).fst).testBit j := by
  have hc : c &&& M8 = c := land_M8_of_lt h
  have hP : (c >>> 4) &&& M8 = c >>> 4 := by
    apply land_M8_of_lt
    rw [Nat.shiftRight_eq_div_pow]
    exact Nat.lt_of_le_of_lt (Nat.div_le_self c (2 ^ 4)) h
  refine ⟨?_, ?_, ?_⟩
  · rw [Dio_ReadChannel]
    simp only [Dio_WriteChannel, reflect, Bfx_ShiftBitRt_u8u8, Bfx_PutBit_u32u8u8,
      clr_f0_eq_land_15, hc, Function.update_same, STD_HIGH]
    rw [if_pos (by decide)]
    rw [getBit_eq, Nat.testBit_or, testBit_one_shl]
    simp
  · simp only [Dio_ReadPort, Dio_WriteChannel, reflect, Bfx_ShiftBitRt_u8u8,
      Bfx_PutBit_u32u8u8, clr_f0_eq_land_15, hc, hP, Function.update_same, STD_HIGH]
    rw [if_pos (by decide)]
    rw [Nat.testBit_or, testBit_one_shl]
    simp
  · intro j hj
    simp only [Dio_ReadPort, Dio_WriteChannel, reflect, Bfx_ShiftBitRt_u8u8,
      Bfx_PutBit_u32u8u8, clr_f0_eq_land_15, hc, hP, Function.update_same, STD_HIGH]
    rw [if_pos (by decide)]
    rw [Nat.testBit_or, testBit_one_shl, hRefl]
    have hne : c &&& 15 ≠ j := fun hh => hj hh.symm
    simp [hne]

/-- C5 witness at channel id 0x23 (port 2, pin 3) on the all-zero file. -/
theorem dio_writeChannel_readBack_witness :
    (0x23 : Nat) < 256 ∧ (zeroState (0x23 >>> 4)).IDR = (zeroState (0x23 >>> 4)).ODR ∧
    (Dio_ReadChannel (reflect (Dio_WriteChannel zeroState 0x23 STD_HIGH)) 0x23).fst = STD_HIGH :=
  ⟨by decide, rfl, (dio_writeChannel_readBack zeroState 0x23 (by decide) rfl).1⟩

/-- C8: after Dio_MaskedWritePort, every ODR bit of the port selected by
the mask equals the corresponding bit of the value, and every other ODR
bit keeps its pre-call value. -/
theorem dio_maskedWritePort_bits (s : DioState) (p v m i : Nat)
    (hp : p < 256) (hODR : (s p).ODR < 2 ^ 32) (hv : v < 2 ^ 32) (hm : m < 2 ^ 32) :
    (m.testBit i = true →
      (((Dio_MaskedWritePort s p v m) p).ODR).testBit i = v.testBit i) ∧
    (m.testBit i = false →
      (((Dio_MaskedWritePort s p v m) p).ODR).testBit i = ((s p).ODR).testBit i) := by
  have hP : p &&& M8 = p := land_M8_of_lt hp
  have hvM : v &&& M32 = v := land_M32_of_lt hv
  have hmM : m &&& M32 = m := land_M32_of_lt hm
  have key : Dio_MaskedWritePort s p v m
      = Function.update s p { s p with ODR := ((s p).ODR &&& (m ^^^ M32)) ||| (v &&& m) } := by
    unfold Dio_MaskedWritePort Bfx_PutBitsMask_u32u32u32
    rw [hP, hvM, hmM]
  simp only [key, Function.update_same, Nat.testBit_or, Nat.testBit_and]
  constructor
  · intro hbit
    have h32 : i < 32 := testBit_lt_32 hm hbit
    have hx : (m ^^^ M32).testBit i = false := by
      rw [Nat.testBit_xor, hbit, testBit_M32]; simp [h32]
    simp [hx, hbit]
  · intro hbit
    by_cases h32 : i < 32
    · have hx : (m ^^^ M32).testBit i = true := by
        rw [Nat.testBit_xor, hbit, testBit_M32]; simp [h32]
      simp [hx, hbit]
    · have hODRi : ((s p).ODR).testBit i = false := testBit_high hODR (by omega)
      simp [hODRi, hbit]

/-- C8 witness: port 1, value 0xAAAA, mask 0x0FF0, bits 5 and 2. -/
theorem dio_maskedWritePort_bits_witness :
    (1 : Nat) < 256 ∧ (zeroState 1).ODR < 2 ^ 32 ∧ (0xaaaa : Nat) < 2 ^ 32 ∧
    (0x0ff0 : Nat) < 2 ^ 32 ∧
    ((0x0ff0 : Nat).testBit 5 = true →
      (((Dio_MaskedWritePort zeroState 1 0xaaaa 0x0ff0) 1).ODR).testBit 5
        = (0xaaaa : Nat).testBit 5) :=
  ⟨by decide, by decide, by decide, by decide,
    (dio_maskedWritePort_bits zeroState 1 0xaaaa 0x0ff0 5
      (by decide) (by decide) (by decide) (by decide)).1⟩

end Dio
